import Mathlib

/-!
Verification of the `what-sapp` chat server (server.py, utils.py, config.py)
against its natural-language specification.

The Python code is shallowly embedded: pure functions become Lean functions,
Python's `/` true division on integers becomes exact division in `ℚ`
(for the millisecond magnitudes involved, float division by 2 is exact, so
`ℚ` captures "the chosen numeric precision"), dicts of JSON values become
association lists of `JVal`, and the effectful server code becomes functions
producing explicit lists of `Effect` events (lock acquire/release, sends,
closes), with send/decode failures supplied by oracles standing for the
network and for `json.loads`.
-/

namespace WhatSapp

/-! ## config.py -/

def MSG_TYPE_CHAT : String := "chat"
def MSG_TYPE_CLOCK_SYNC_REQUEST : String := "clock_sync_request"
def MSG_TYPE_CLOCK_SYNC_RESPONSE : String := "clock_sync_response"
def MSG_TYPE_USER_JOIN : String := "user_join"
def MSG_TYPE_USER_LEAVE : String := "user_leave"
def MSG_TYPE_BROADCAST : String := "broadcast"

/-! ## utils.py — CristianClockSync.calculate_offset

The Python function receives integer millisecond timestamps and uses `/`
(true division), so `one_way_delay`, `adjusted_server_time`, `offset` and
`confidence` are Python floats while `rtt` stays an `int`.  We embed the
arithmetic in `ℚ`, which is exact division — faithful to the source for all
inputs whose intermediate values fit a float's mantissa. -/

/-- Embedding of `CristianClockSync.calculate_offset` (utils.py lines 32-60).
Returns `(offset, confidence, rtt)`. -/
def calculate_offset (client_time_before server_time_response client_time_after : ℤ) :
    ℚ × ℚ × ℤ :=
  let rtt : ℤ := client_time_after - client_time_before
  let one_way_delay : ℚ := (rtt : ℚ) / 2
  let adjusted_server_time : ℚ := (server_time_response : ℚ) + one_way_delay
  let offset : ℚ := adjusted_server_time - (client_time_after : ℚ)
  let confidence : ℚ := (rtt : ℚ) / 2
  (offset, confidence, rtt)

/-! ## Messages as JSON objects

Python passes messages around as dicts produced by `json.loads` /
consumed by `json.dumps`.  We model a JSON scalar and an object as an
association list; `JObj.get` returns the value of the last binding of a key
(dict insertion-with-override semantics) or `null` (Python `dict.get`
default) when the key is absent. -/

inductive JVal
  | str (s : String)
  | int (n : ℤ)
  | null
deriving DecidableEq, Repr

abbrev JObj := List (String × JVal)

def JObj.get (m : JObj) (k : String) : JVal :=
  m.foldl (fun acc p => if p.1 == k then p.2 else acc) .null

/-! ## Server state and observable effects

`server.py` keeps `self.clients : dict socket → client_info` guarded by
`self.clients_lock`, plus `self.running` and `self.server_socket`.
Connection handles are modelled as naturals; the effectful bodies of the
server methods are embedded as functions returning the list of observable
events they perform, in order.  Send failures (`except: pass` around
`socket.send`) are driven by an oracle `sendFails : Handle → Bool` standing
for the network. -/

abbrev Handle := ℕ

structure ClientInfo where
  address : String
  id : String
  connected_at : ℤ
deriving DecidableEq, Repr

abbrev Registry := List (Handle × ClientInfo)

structure ServerState where
  clients : Registry
  running : Bool
  server_socket : Bool
deriving DecidableEq, Repr

inductive Effect
  | lockAcquire
  | lockRelease
  | send (h : Handle) (payload : JObj)
  | sendFailed (h : Handle) (payload : JObj)
  | close (h : Handle)
  | closeServerSocket
deriving DecidableEq, Repr

/-- One `client_socket.send(data)` inside `try/except: pass`: the attempt is
recorded as `send` on success and `sendFailed` when the oracle makes the
socket raise (the exception is swallowed, so the surrounding code continues
either way). -/
def send_attempt (sendFails : Handle → Bool) (payload : JObj) (h : Handle) : Effect :=
  if sendFails h then .sendFailed h payload else .send h payload

/-- The message dict built by `broadcast_message` (server.py lines 142-146):
`{'type': msg_type, 'server_timestamp': now, **kwargs}`. -/
def broadcast_payload (now : ℤ) (msg_type : String) (kwargs : JObj) : JObj :=
  ("type", .str msg_type) :: ("server_timestamp", .int now) :: kwargs

/-- Embedding of `ChatServer.broadcast_message` (server.py lines 140-155):
builds the payload, then `with self.clients_lock:` iterates over
`list(self.clients.keys())` (a copy of the key list) sending to each handle,
swallowing per-handle send errors.  Note the sends happen *inside* the
`with` block. -/
def broadcast_message (sendFails : Handle → Bool) (now : ℤ) (msg_type : String)
    (kwargs : JObj) (clients : Registry) : List Effect :=
  let message := broadcast_payload now msg_type kwargs
  [.lockAcquire] ++ (clients.map Prod.fst).map (send_attempt sendFails message)
    ++ [.lockRelease]

/-- The response dict built by `handle_clock_sync_request`
(server.py lines 128-132). -/
def clock_sync_response_payload (now : ℤ) (request : JObj) : JObj :=
  [("type", .str MSG_TYPE_CLOCK_SYNC_RESPONSE),
   ("server_time", .int now),
   ("client_time_before", request.get "client_time_before")]

/-- Embedding of `ChatServer.handle_clock_sync_request` (server.py lines
119-138): capture the server time, send the response directly on the
requesting socket; the whole body is wrapped in `try/except` that only
prints, so a failed send is swallowed and the caller's loop continues. -/
def handle_clock_sync_request (sendFails : Handle → Bool) (client_socket : Handle)
    (request : JObj) (now : ℤ) : List Effect :=
  [send_attempt sendFails (clock_sync_response_payload now request) client_socket]

/-- A top-level value as returned by Python's `json.loads`: a dict, a list,
a string, an int, a bool, or `None` (decoded `null`).  Only a dict supports
the `.get` method the server calls on a parsed message. -/
inductive PyVal
  | obj (m : JObj)
  | list (xs : List JVal)
  | str (s : String)
  | int (n : ℤ)
  | bool (b : Bool)
  | none
deriving DecidableEq, Repr

/-- Python truthiness of a `json.loads` result, as tested by
`if not message:` (server.py line 82): empty containers, the empty string,
`0`, `False` and `None` are falsy. -/
def PyVal.truthy : PyVal → Bool
  | .obj m => !m.isEmpty
  | .list xs => !xs.isEmpty
  | .str s => !(s == "")
  | .int n => !(n == 0)
  | .bool b => b
  | .none => false

/-- Embedding of `MessageHandler.parse_message` (utils.py lines 76-82):
`json.loads` inside `try/except: return None`.  The stdlib JSON decoder is
abstracted as an oracle `jsonLoads` that either raises or yields an
arbitrary top-level JSON value — not necessarily a dict. -/
def parse_message (jsonLoads : String → Except String PyVal) (data : String) :
    Option PyVal :=
  match jsonLoads data with
  | .ok m => some m
  | .error _ => none

/-- The dispatch on `message.get('type')` in `handle_client`
(server.py lines 85-99): clock-sync requests are answered directly, chat
messages are re-broadcast with the session's id, the echoed client
timestamp and a fresh server timestamp; any other type is ignored. -/
def dispatch (sendFails : Handle → Bool) (clients : Registry)
    (client_socket : Handle) (client_id : String) (message : JObj) (now : ℤ) :
    List Effect :=
  let msg_type := message.get "type"
  if msg_type = .str MSG_TYPE_CLOCK_SYNC_REQUEST then
    handle_clock_sync_request sendFails client_socket message now
  else if msg_type = .str MSG_TYPE_CHAT then
    broadcast_message sendFails now MSG_TYPE_BROADCAST
      [("user_id", .str client_id),
       ("message", message.get "content"),
       ("client_timestamp", message.get "client_timestamp")] clients
  else []

/-- One item of the per-connection input stream: `recv` returned bytes
(`""` is the EOF signal Python's `recv` gives on a closed peer), or the
`recv(...).decode(ENCODING)` line raised — a transport exception or a
`UnicodeDecodeError` on invalid UTF-8, both caught by the same outer
`except` (server.py line 101). -/
inductive NetIn
  | recv (data : String)
  | recvError
deriving DecidableEq, Repr

/-- Embedding of the `while self.running:` read loop of
`ChatServer.handle_client` (server.py lines 75-99).  `clock k` is the value
`CristianClockSync.get_server_time()` returns at the k-th dispatched
message; the registry is the (externally fixed) content of `self.clients`
read by the broadcasts.  The loop stops on an exhausted trace (the
`running` flag dropping), on an empty read (`break`), on a read exception
(caught by the outer `except`, lines 101-102), or — because
`message.get('type')` at line 85 raises `AttributeError` on a truthy
non-dict decode — on a decoded JSON document that is not an object; in
each case it falls through to the `finally` block, which is modelled
separately.  A falsy decode (`None` from a raised decoder, decoded `null`,
`{}`, `[]`, `0`, `""`, `false`) is skipped by `if not message: continue`. -/
def handle_client_loop (jsonLoads : String → Except String PyVal)
    (sendFails : Handle → Bool) (clock : ℕ → ℤ) (clients : Registry)
    (client_socket : Handle) (client_id : String) :
    List NetIn → ℕ → List Effect × ℕ
  | [], p => ([], p)
  | .recvError :: _, p => ([], p)
  | .recv data :: rest, p =>
    if data = "" then ([], p)
    else
      match parse_message jsonLoads data with
      | Option.none =>
        handle_client_loop jsonLoads sendFails clock clients client_socket client_id rest p
      | Option.some v =>
        if v.truthy = false then
          handle_client_loop jsonLoads sendFails clock clients client_socket client_id
            rest p
        else
          match v with
          | .obj message =>
            let es := dispatch sendFails clients client_socket client_id message (clock p)
            let r := handle_client_loop jsonLoads sendFails clock clients client_socket
              client_id rest (p + 1)
            (es ++ r.1, r.2)
          | _ => ([], p)

/-- The `finally` block of `handle_client` (server.py lines 104-117): under
the lock, delete the socket's registry entry if present; broadcast
`user_leave` (over the now-updated registry); close the handle. -/
def handle_client_finally (sendFails : Handle → Bool) (now : ℤ) (clients : Registry)
    (client_socket : Handle) (client_id : String) : Registry × List Effect :=
  let clients' := clients.filter (fun p => p.1 != client_socket)
  (clients',
    [.lockAcquire, .lockRelease] ++
    broadcast_message sendFails now MSG_TYPE_USER_LEAVE
      [("user_id", .str client_id),
       ("message", .str (client_id ++ " left the chat"))] clients' ++
    [.close client_socket])

/-- A whole session: the read loop followed by its `finally` block.  Returns
the emitted effects and the registry after the session's deregistration. -/
def handle_client (jsonLoads : String → Except String PyVal)
    (sendFails : Handle → Bool) (clock : ℕ → ℤ) (clients : Registry)
    (client_socket : Handle) (client_id : String) (ins : List NetIn) :
    List Effect × Registry :=
  let r := handle_client_loop jsonLoads sendFails clock clients client_socket client_id ins 0
  let f := handle_client_finally sendFails (clock r.2) clients client_socket client_id
  (r.1 ++ f.2, f.1)

/-- Embedding of `ChatServer.shutdown` (server.py lines 157-170): clear the
`running` flag, close every handle currently in the registry under the lock
(close errors swallowed), close the listening socket if present.  The
`clients` dict itself is never touched. -/
def shutdown (st : ServerState) : ServerState × List Effect :=
  let es := [Effect.lockAcquire] ++
    (st.clients.map Prod.fst).map (fun h => Effect.close h) ++ [Effect.lockRelease]
  let es := if st.server_socket then es ++ [Effect.closeServerSocket] else es
  ({ st with running := false }, es)

/-! ## Trace observations -/

/-- Handles that receive a send *attempt* (successful or failed), in
order. -/
def sendTargets : List Effect → List Handle
  | [] => []
  | .send h _ :: es => h :: sendTargets es
  | .sendFailed h _ :: es => h :: sendTargets es
  | _ :: es => sendTargets es

/-- Handles to which a send *succeeded*, in order. -/
def deliveredTargets : List Effect → List Handle
  | [] => []
  | .send h _ :: es => h :: deliveredTargets es
  | _ :: es => deliveredTargets es

/-- Number of send attempts performed while the lock is held, starting from
lock depth `d`. -/
def sendsWhileLocked : List Effect → ℕ → ℕ
  | [], _ => 0
  | .lockAcquire :: es, d => sendsWhileLocked es (d + 1)
  | .lockRelease :: es, d => sendsWhileLocked es (d - 1)
  | .send _ _ :: es, d => (if 0 < d then 1 else 0) + sendsWhileLocked es d
  | .sendFailed _ _ :: es, d => (if 0 < d then 1 else 0) + sendsWhileLocked es d
  | _ :: es, d => sendsWhileLocked es d

/-- Number of send attempts performed while the lock is free, starting from
lock depth `d`. -/
def sendsWhileUnlocked : List Effect → ℕ → ℕ
  | [], _ => 0
  | .lockAcquire :: es, d => sendsWhileUnlocked es (d + 1)
  | .lockRelease :: es, d => sendsWhileUnlocked es (d - 1)
  | .send _ _ :: es, d => (if d = 0 then 1 else 0) + sendsWhileUnlocked es d
  | .sendFailed _ _ :: es, d => (if d = 0 then 1 else 0) + sendsWhileUnlocked es d
  | _ :: es, d => sendsWhileUnlocked es d

/-- Does this effect attempt to send a `user_leave` message to `target`? -/
def isUserLeaveSendTo (target : Handle) : Effect → Bool
  | .send h payload =>
      h == target && payload.get "type" == JVal.str MSG_TYPE_USER_LEAVE
  | .sendFailed h payload =>
      h == target && payload.get "type" == JVal.str MSG_TYPE_USER_LEAVE
  | _ => false

/-- Is this effect the closing of `target`? -/
def isCloseOf (target : Handle) : Effect → Bool
  | .close h => h == target
  | _ => false

/-- Concrete client metadata used by witnesses and counterexamples. -/
def infoEx : ClientInfo := ⟨"127.0.0.1", "Client_1", 0⟩

end WhatSapp

namespace WhatSapp

/-! ## Claims about the estimator -/

/-- **C1.** For every triple of integer millisecond timestamps `t0, s, t1` with
`t1 ≥ t0`, `calculate_offset t0 s t1` returns exactly
`rtt = t1 - t0`, `confidence = rtt / 2`, `offset = s + rtt / 2 - t1`,
with no rounding loss (exact rational arithmetic); in particular
`calculate_offset 5000 6000 5200 = (900, 100, 200)`. -/
theorem calculate_offset_exact (t0 s t1 : ℤ) (h : t0 ≤ t1) :
    (calculate_offset t0 s t1).2.2 = t1 - t0 ∧
    (calculate_offset t0 s t1).2.1 = ((t1 - t0 : ℤ) : ℚ) / 2 ∧
    (calculate_offset t0 s t1).1 = (s : ℚ) + ((t1 - t0 : ℤ) : ℚ) / 2 - (t1 : ℚ) ∧
    0 ≤ (calculate_offset t0 s t1).2.2 ∧
    calculate_offset 5000 6000 5200 = (900, 100, 200) := by
  have hr : (calculate_offset t0 s t1).2.2 = t1 - t0 := rfl
  refine ⟨rfl, rfl, ?_, by omega, ?_⟩
  · simp only [calculate_offset]
  · simp only [calculate_offset]
    norm_num

/-- Witness for C1 at `t0 = 5000`, `s = 6000`, `t1 = 5200`. -/
theorem calculate_offset_exact_witness :
    (calculate_offset 5000 6000 5200).2.2 = 5200 - 5000 ∧
    (calculate_offset 5000 6000 5200).2.1 = ((5200 - 5000 : ℤ) : ℚ) / 2 ∧
    (calculate_offset 5000 6000 5200).1 =
      (6000 : ℚ) + ((5200 - 5000 : ℤ) : ℚ) / 2 - (5200 : ℚ) ∧
    0 ≤ (calculate_offset 5000 6000 5200).2.2 ∧
    calculate_offset 5000 6000 5200 = (900, 100, 200) :=
  calculate_offset_exact 5000 6000 5200 (by norm_num)

/-- **C8, counterexample.** The claim says that for *every* input triple the
result has integer offset, non-negative integer confidence and non-negative
integer rtt.  But on `(0, 0, 1)` the confidence is `1/2`, not an integer,
and on `(1, 0, 0)` the rtt is `-1`, negative. -/
theorem calculate_offset_not_always_integral :
    (calculate_offset 0 0 1).2.1.den = 2 ∧ (calculate_offset 1 0 0).2.2 < 0 := by
  constructor
  · norm_num [calculate_offset]
  · norm_num [calculate_offset]

/-- **C8, amended.** For inputs with `t1 ≥ t0`, the rtt is a non-negative
integer and the confidence a non-negative rational; offset and confidence are
integer-valued exactly when the rtt is even (the code computes them as exact
halves of integers, which are half-integral in general). -/
theorem calculate_offset_result_types (t0 s t1 : ℤ) (h : t0 ≤ t1) :
    0 ≤ (calculate_offset t0 s t1).2.2 ∧
    0 ≤ (calculate_offset t0 s t1).2.1 ∧
    ((t1 - t0) % 2 = 0 →
      (calculate_offset t0 s t1).1.den = 1 ∧ (calculate_offset t0 s t1).2.1.den = 1) := by
  have hr : (calculate_offset t0 s t1).2.2 = t1 - t0 := rfl
  refine ⟨by omega, ?_, ?_⟩
  · have hc : (calculate_offset t0 s t1).2.1 = ((t1 - t0 : ℤ) : ℚ) / 2 := rfl
    rw [hc]
    have : (0 : ℚ) ≤ ((t1 - t0 : ℤ) : ℚ) := by exact_mod_cast (by omega : (0 : ℤ) ≤ t1 - t0)
    linarith
  · intro hev
    obtain ⟨k, hk⟩ : ∃ k : ℤ, t1 - t0 = 2 * k := ⟨(t1 - t0) / 2, by omega⟩
    constructor
    · have : (calculate_offset t0 s t1).1 = ((s + k - t1 : ℤ) : ℚ) := by
        simp only [calculate_offset]
        push_cast [hk]
        ring
      rw [this, Rat.den_intCast]
    · have : (calculate_offset t0 s t1).2.1 = ((k : ℤ) : ℚ) := by
        simp only [calculate_offset]
        push_cast [hk]
        ring
      rw [this, Rat.den_intCast]

/-- Witness for the amended C8 at `t0 = 5000`, `s = 6000`, `t1 = 5200`. -/
theorem calculate_offset_result_types_witness :
    0 ≤ (calculate_offset 5000 6000 5200).2.2 ∧
    0 ≤ (calculate_offset 5000 6000 5200).2.1 ∧
    (((5200 : ℤ) - 5000) % 2 = 0 →
      (calculate_offset 5000 6000 5200).1.den = 1 ∧
      (calculate_offset 5000 6000 5200).2.1.den = 1) :=
  calculate_offset_result_types 5000 6000 5200 (by norm_num)

/-! ## Broadcast fan-out lemmas -/

lemma sendTargets_acquire (l : List Effect) :
    sendTargets (Effect.lockAcquire :: l) = sendTargets l := rfl

lemma deliveredTargets_acquire (l : List Effect) :
    deliveredTargets (Effect.lockAcquire :: l) = deliveredTargets l := rfl

lemma sendsWhileLocked_acquire (l : List Effect) (d : ℕ) :
    sendsWhileLocked (Effect.lockAcquire :: l) d = sendsWhileLocked l (d + 1) := rfl

lemma sendsWhileUnlocked_acquire (l : List Effect) (d : ℕ) :
    sendsWhileUnlocked (Effect.lockAcquire :: l) d = sendsWhileUnlocked l (d + 1) := rfl

lemma sendsWhileLocked_map_append (f : Handle → Bool) (payload : JObj)
    (hs : List Handle) (tail : List Effect) (d : ℕ) (hd : 0 < d) :
    sendsWhileLocked (hs.map (send_attempt f payload) ++ tail) d
      = hs.length + sendsWhileLocked tail d := by
  induction hs with
  | nil => simp
  | cons h t ih =>
    by_cases hf : f h <;>
      simp [send_attempt, hf, sendsWhileLocked, hd, ih] <;> omega

lemma sendsWhileUnlocked_map_append (f : Handle → Bool) (payload : JObj)
    (hs : List Handle) (tail : List Effect) (d : ℕ) (hd : 0 < d) :
    sendsWhileUnlocked (hs.map (send_attempt f payload) ++ tail) d
      = sendsWhileUnlocked tail d := by
  induction hs with
  | nil => simp
  | cons h t ih =>
    by_cases hf : f h <;>
      simp [send_attempt, hf, sendsWhileUnlocked, Nat.pos_iff_ne_zero.mp hd, ih]

lemma sendTargets_map_append (f : Handle → Bool) (payload : JObj)
    (hs : List Handle) (tail : List Effect) :
    sendTargets (hs.map (send_attempt f payload) ++ tail) = hs ++ sendTargets tail := by
  induction hs with
  | nil => simp
  | cons h t ih =>
    by_cases hf : f h <;> simp [send_attempt, hf, sendTargets, ih]

lemma deliveredTargets_map_append (f : Handle → Bool) (payload : JObj)
    (hs : List Handle) (tail : List Effect) :
    deliveredTargets (hs.map (send_attempt f payload) ++ tail)
      = hs.filter (fun h => !f h) ++ deliveredTargets tail := by
  induction hs with
  | nil => simp
  | cons h t ih =>
    by_cases hf : f h <;> simp [send_attempt, hf, deliveredTargets, ih, List.filter]

/-- **C2, counterexample.** The claim says `broadcast_message` releases the
registry lock before performing any send.  In the code the sends are inside
the `with self.clients_lock:` block: with one registered client the trace
contains a send attempt performed at positive lock depth. -/
theorem broadcast_send_not_after_release :
    sendsWhileLocked
      (broadcast_message (fun _ => false) 0 MSG_TYPE_BROADCAST [] [(1, infoEx)]) 0 ≠ 0 := by
  decide

/-- **C2, amended.** `broadcast_message` does iterate over a copy of the
current key list (`list(self.clients.keys())`), but every send attempt is
performed while the registry lock is held: none happens with the lock free,
the number of locked sends equals the number of registered clients, and the
attempted targets are exactly the copied key list. -/
theorem broadcast_sends_inside_lock (sendFails : Handle → Bool) (now : ℤ)
    (msg_type : String) (kwargs : JObj) (clients : Registry) :
    sendsWhileLocked (broadcast_message sendFails now msg_type kwargs clients) 0
      = clients.length ∧
    sendsWhileUnlocked (broadcast_message sendFails now msg_type kwargs clients) 0 = 0 ∧
    sendTargets (broadcast_message sendFails now msg_type kwargs clients)
      = clients.map Prod.fst := by
  refine ⟨?_, ?_, ?_⟩
  · show sendsWhileLocked
      (Effect.lockAcquire :: ((clients.map Prod.fst).map _ ++ [Effect.lockRelease])) 0 = _
    rw [sendsWhileLocked_acquire, sendsWhileLocked_map_append _ _ _ _ _ (by norm_num)]
    simp [sendsWhileLocked]
  · show sendsWhileUnlocked
      (Effect.lockAcquire :: ((clients.map Prod.fst).map _ ++ [Effect.lockRelease])) 0 = _
    rw [sendsWhileUnlocked_acquire, sendsWhileUnlocked_map_append _ _ _ _ _ (by norm_num)]
    simp [sendsWhileUnlocked]
  · show sendTargets
      (Effect.lockAcquire :: ((clients.map Prod.fst).map _ ++ [Effect.lockRelease])) = _
    rw [sendTargets_acquire, sendTargets_map_append]
    simp [sendTargets]

/-- **C4.** For every message and every set of registered handles where the
oracle makes any subset of sends fail, `broadcast_message` still attempts
delivery to every handle (the attempted targets are the whole key list, in
order), succeeds exactly on the non-failing ones, and — being a total
function whose per-send failures are recorded rather than propagated —
returns to its caller without raising. -/
theorem broadcast_attempts_all_and_ignores_failures (sendFails : Handle → Bool)
    (now : ℤ) (msg_type : String) (kwargs : JObj) (clients : Registry) :
    sendTargets (broadcast_message sendFails now msg_type kwargs clients)
      = clients.map Prod.fst ∧
    deliveredTargets (broadcast_message sendFails now msg_type kwargs clients)
      = (clients.map Prod.fst).filter (fun h => !sendFails h) := by
  constructor
  · show sendTargets
      (Effect.lockAcquire :: ((clients.map Prod.fst).map _ ++ [Effect.lockRelease])) = _
    rw [sendTargets_acquire, sendTargets_map_append]
    simp [sendTargets]
  · show deliveredTargets
      (Effect.lockAcquire :: ((clients.map Prod.fst).map _ ++ [Effect.lockRelease])) = _
    rw [deliveredTargets_acquire, deliveredTargets_map_append]
    simp [deliveredTargets]

/-! ## Chat dispatch and clock-sync reply -/

/-- Concrete chat message used by witnesses. -/
def chatMsgEx : JObj :=
  [("type", .str MSG_TYPE_CHAT), ("content", .str "hi"),
   ("client_timestamp", .int 1000)]

/-- Concrete clock-sync request used by witnesses. -/
def syncReqEx : JObj :=
  [("type", .str MSG_TYPE_CLOCK_SYNC_REQUEST), ("client_time_before", .int 5000)]

/-- Concrete two-client registry used by witnesses. -/
def clientsEx : Registry := [(1, infoEx), (2, ⟨"127.0.0.1", "Client_2", 0⟩)]

/-- **C3.** A session with id `client_id` receiving a chat message hands the
broadcaster a `broadcast` message whose `user_id` is the session's id, whose
`message` is the chat's `content`, whose `client_timestamp` is echoed
unchanged, and whose `server_timestamp` is the server time at broadcast; the
send is attempted on every connection in the registry (the sender
included, when registered). -/
theorem chat_message_broadcast (sendFails : Handle → Bool) (clients : Registry)
    (client_socket : Handle) (client_id : String) (message : JObj) (now : ℤ)
    (hty : message.get "type" = .str MSG_TYPE_CHAT) :
    dispatch sendFails clients client_socket client_id message now
      = broadcast_message sendFails now MSG_TYPE_BROADCAST
          [("user_id", .str client_id),
           ("message", message.get "content"),
           ("client_timestamp", message.get "client_timestamp")] clients ∧
    (broadcast_payload now MSG_TYPE_BROADCAST
        [("user_id", .str client_id),
         ("message", message.get "content"),
         ("client_timestamp", message.get "client_timestamp")]).get "type"
      = .str MSG_TYPE_BROADCAST ∧
    (broadcast_payload now MSG_TYPE_BROADCAST
        [("user_id", .str client_id),
         ("message", message.get "content"),
         ("client_timestamp", message.get "client_timestamp")]).get "user_id"
      = .str client_id ∧
    (broadcast_payload now MSG_TYPE_BROADCAST
        [("user_id", .str client_id),
         ("message", message.get "content"),
         ("client_timestamp", message.get "client_timestamp")]).get "message"
      = message.get "content" ∧
    (broadcast_payload now MSG_TYPE_BROADCAST
        [("user_id", .str client_id),
         ("message", message.get "content"),
         ("client_timestamp", message.get "client_timestamp")]).get "client_timestamp"
      = message.get "client_timestamp" ∧
    (broadcast_payload now MSG_TYPE_BROADCAST
        [("user_id", .str client_id),
         ("message", message.get "content"),
         ("client_timestamp", message.get "client_timestamp")]).get "server_timestamp"
      = .int now ∧
    sendTargets (dispatch sendFails clients client_socket client_id message now)
      = clients.map Prod.fst := by
  have hne : message.get "type" ≠ JVal.str MSG_TYPE_CLOCK_SYNC_REQUEST := by
    rw [hty]; decide
  have hd : dispatch sendFails clients client_socket client_id message now
      = broadcast_message sendFails now MSG_TYPE_BROADCAST
          [("user_id", .str client_id),
           ("message", message.get "content"),
           ("client_timestamp", message.get "client_timestamp")] clients := by
    simp only [dispatch, if_neg hne, if_pos hty]
  refine ⟨hd, rfl, rfl, rfl, rfl, rfl, ?_⟩
  rw [hd]
  show sendTargets
    (Effect.lockAcquire :: ((clients.map Prod.fst).map _ ++ [Effect.lockRelease])) = _
  rw [sendTargets_acquire, sendTargets_map_append]
  simp [sendTargets]

/-- Witness for C3: `Client_1` (socket 1) sends `chat{content:"hi",
client_timestamp:1000}` with two clients registered. -/
theorem chat_message_broadcast_witness :
    dispatch (fun _ => false) clientsEx 1 "Client_1" chatMsgEx 424242
      = broadcast_message (fun _ => false) 424242 MSG_TYPE_BROADCAST
          [("user_id", .str "Client_1"),
           ("message", chatMsgEx.get "content"),
           ("client_timestamp", chatMsgEx.get "client_timestamp")] clientsEx ∧
    (broadcast_payload 424242 MSG_TYPE_BROADCAST
        [("user_id", .str "Client_1"),
         ("message", chatMsgEx.get "content"),
         ("client_timestamp", chatMsgEx.get "client_timestamp")]).get "type"
      = .str MSG_TYPE_BROADCAST ∧
    (broadcast_payload 424242 MSG_TYPE_BROADCAST
        [("user_id", .str "Client_1"),
         ("message", chatMsgEx.get "content"),
         ("client_timestamp", chatMsgEx.get "client_timestamp")]).get "user_id"
      = .str "Client_1" ∧
    (broadcast_payload 424242 MSG_TYPE_BROADCAST
        [("user_id", .str "Client_1"),
         ("message", chatMsgEx.get "content"),
         ("client_timestamp", chatMsgEx.get "client_timestamp")]).get "message"
      = chatMsgEx.get "content" ∧
    (broadcast_payload 424242 MSG_TYPE_BROADCAST
        [("user_id", .str "Client_1"),
         ("message", chatMsgEx.get "content"),
         ("client_timestamp", chatMsgEx.get "client_timestamp")]).get "client_timestamp"
      = chatMsgEx.get "client_timestamp" ∧
    (broadcast_payload 424242 MSG_TYPE_BROADCAST
        [("user_id", .str "Client_1"),
         ("message", chatMsgEx.get "content"),
         ("client_timestamp", chatMsgEx.get "client_timestamp")]).get "server_timestamp"
      = .int 424242 ∧
    sendTargets (dispatch (fun _ => false) clientsEx 1 "Client_1" chatMsgEx 424242)
      = clientsEx.map Prod.fst :=
  chat_message_broadcast (fun _ => false) clientsEx 1 "Client_1" chatMsgEx 424242 (by rfl)

/-- **C7.** A `clock_sync_request` is answered with a `clock_sync_response`
carrying the captured server time and the echoed `client_time_before`,
sent directly on the requesting connection; the only send attempt targets
the requester (no broadcast), whether or not the send succeeds. -/
theorem clock_sync_reply_direct (sendFails : Handle → Bool) (clients : Registry)
    (client_socket : Handle) (client_id : String) (request : JObj) (now : ℤ)
    (hok : sendFails client_socket = false) :
    handle_clock_sync_request sendFails client_socket request now
      = [.send client_socket (clock_sync_response_payload now request)] ∧
    (clock_sync_response_payload now request).get "type"
      = .str MSG_TYPE_CLOCK_SYNC_RESPONSE ∧
    (clock_sync_response_payload now request).get "server_time" = .int now ∧
    (clock_sync_response_payload now request).get "client_time_before"
      = request.get "client_time_before" ∧
    sendTargets (handle_clock_sync_request sendFails client_socket request now)
      = [client_socket] ∧
    (request.get "type" = .str MSG_TYPE_CLOCK_SYNC_REQUEST →
      dispatch sendFails clients client_socket client_id request now
        = handle_clock_sync_request sendFails client_socket request now) := by
  refine ⟨?_, rfl, rfl, rfl, ?_, ?_⟩
  · simp [handle_clock_sync_request, send_attempt, hok]
  · simp [handle_clock_sync_request, send_attempt, hok, sendTargets]
  · intro hty
    simp only [dispatch, if_pos hty]

/-- Witness for C7: socket 1 requests `clock_sync_request{client_time_before:
5000}` at server time 6000, no send failure. -/
theorem clock_sync_reply_direct_witness :
    handle_clock_sync_request (fun _ => false) 1 syncReqEx 6000
      = [.send 1 (clock_sync_response_payload 6000 syncReqEx)] ∧
    (clock_sync_response_payload 6000 syncReqEx).get "type"
      = .str MSG_TYPE_CLOCK_SYNC_RESPONSE ∧
    (clock_sync_response_payload 6000 syncReqEx).get "server_time" = .int 6000 ∧
    (clock_sync_response_payload 6000 syncReqEx).get "client_time_before"
      = syncReqEx.get "client_time_before" ∧
    sendTargets (handle_clock_sync_request (fun _ => false) 1 syncReqEx 6000) = [1] ∧
    (syncReqEx.get "type" = .str MSG_TYPE_CLOCK_SYNC_REQUEST →
      dispatch (fun _ => false) clientsEx 1 "Client_1" syncReqEx 6000
        = handle_clock_sync_request (fun _ => false) 1 syncReqEx 6000) :=
  clock_sync_reply_direct (fun _ => false) clientsEx 1 "Client_1" syncReqEx 6000 rfl

/-! ## Shutdown -/

/-- **C10.** `shutdown` clears the running flag, emits a close for every
handle currently in the registry and for the listening socket (when one
exists), but never touches the `clients` mapping: afterwards the registry
still holds exactly the same entries, so its count is unchanged. -/
theorem shutdown_preserves_registry (st : ServerState) :
    (shutdown st).1.clients = st.clients ∧
    (shutdown st).1.clients.length = st.clients.length ∧
    (∀ h ∈ st.clients.map Prod.fst, Effect.close h ∈ (shutdown st).2) ∧
    (st.server_socket = true → Effect.closeServerSocket ∈ (shutdown st).2) ∧
    (shutdown st).1.running = false := by
  refine ⟨rfl, rfl, ?_, ?_, rfl⟩
  · intro h hmem
    obtain ⟨p, hp, rfl⟩ := List.mem_map.mp hmem
    simp only [shutdown]
    by_cases hs : st.server_socket <;> simp [hs] <;>
      exact ⟨p.2, Prod.mk.eta ▸ hp⟩
  · intro hs
    simp [shutdown, hs]

/-- Witness for C10: a server with two registered clients and a live
listening socket. -/
theorem shutdown_preserves_registry_witness :
    (shutdown ⟨clientsEx, true, true⟩).1.clients = clientsEx ∧
    (shutdown ⟨clientsEx, true, true⟩).1.clients.length = clientsEx.length ∧
    Effect.close 1 ∈ (shutdown ⟨clientsEx, true, true⟩).2 ∧
    Effect.close 2 ∈ (shutdown ⟨clientsEx, true, true⟩).2 ∧
    Effect.closeServerSocket ∈ (shutdown ⟨clientsEx, true, true⟩).2 ∧
    (shutdown ⟨clientsEx, true, true⟩).1.running = false := by
  obtain ⟨h1, h2, h3, h4, h5⟩ := shutdown_preserves_registry ⟨clientsEx, true, true⟩
  exact ⟨h1, h2, h3 1 (by decide), h3 2 (by decide), h4 rfl, h5⟩

/-! ## Session loop: malformed input -/

/-- Concrete stand-in for `json.loads` used by witnesses and
counterexamples: decodes the two well-formed wire strings to dicts, decodes
`"123"` to the JSON number `123` and `"null"` to Python `None`, and raises
on everything else. -/
def jsonLoadsEx : String → Except String PyVal := fun s =>
  if s = "CHAT" then .ok (.obj chatMsgEx)
  else if s = "SYNC" then .ok (.obj syncReqEx)
  else if s = "123" then .ok (.int 123)
  else if s = "null" then .ok .none
  else .error "Expecting value"

/-- **C5, counterexample.** The claim says that on *every* byte sequence
that does not decode to a well-formed message the connection survives and
later well-formed messages are still processed.  But on `"123"` — valid
JSON, not a message — `json.loads` succeeds with a truthy non-dict, so
`message.get('type')` (server.py line 85) raises `AttributeError`, the
outer `except` ends the loop, and the `finally` block closes the
connection: the loop exits at once (final step counter 0), the following
well-formed chat message is never processed, and the session's close
fires. -/
theorem nondict_json_terminates_connection :
    parse_message jsonLoadsEx "123" = some (.int 123) ∧
    handle_client_loop jsonLoadsEx (fun _ => false) (fun k => (k : ℤ)) clientsEx 1
        "Client_1" [.recv "123", .recv "CHAT"] 0 = ([], 0) ∧
    ((handle_client jsonLoadsEx (fun _ => false) (fun k => (k : ℤ)) clientsEx 1
        "Client_1" [.recv "123", .recv "CHAT"]).1).countP (isCloseOf 1) = 1 := by
  refine ⟨rfl, rfl, ?_⟩
  decide

/-- **C5, amended.** `parse_message` turns a raising decode into `None`
rather than propagating the error, and the session loop skips any falsy
decode result (`None` from a raised decoder, decoded `null`, `{}`, `[]`,
`0`, `""`, `false`), continuing with the remaining stream exactly as if the
input had not arrived — the connection stays open and subsequent
well-formed messages are processed unchanged; but a byte sequence decoding
to a *truthy non-dict* JSON document makes `message.get('type')` raise,
terminating that session's loop (the remaining stream is not processed and
the single exit path then deregisters and closes the connection).
(`data ≠ ""` because an empty `recv` result is the EOF signal, not a
message.) -/
theorem malformed_input_handling (jsonLoads : String → Except String PyVal)
    (sendFails : Handle → Bool) (clock : ℕ → ℤ) (clients : Registry)
    (client_socket : Handle) (client_id : String) (data err : String)
    (v : PyVal) (rest : List NetIn) (p : ℕ) (hne : data ≠ "") :
    (jsonLoads data = .error err →
      parse_message jsonLoads data = none ∧
      handle_client_loop jsonLoads sendFails clock clients client_socket client_id
          (.recv data :: rest) p
        = handle_client_loop jsonLoads sendFails clock clients client_socket
            client_id rest p) ∧
    (jsonLoads data = .ok v → v.truthy = false →
      handle_client_loop jsonLoads sendFails clock clients client_socket client_id
          (.recv data :: rest) p
        = handle_client_loop jsonLoads sendFails clock clients client_socket
            client_id rest p) ∧
    (jsonLoads data = .ok v → v.truthy = true → (∀ m, v ≠ .obj m) →
      handle_client_loop jsonLoads sendFails clock clients client_socket client_id
          (.recv data :: rest) p = ([], p)) := by
  refine ⟨?_, ?_, ?_⟩
  · intro hbad
    have hp : parse_message jsonLoads data = none := by
      simp [parse_message, hbad]
    exact ⟨hp, by simp [handle_client_loop, hne, hp]⟩
  · intro hok hfalsy
    have hp : parse_message jsonLoads data = some v := by
      simp [parse_message, hok]
    simp [handle_client_loop, hne, hp, hfalsy]
  · intro hok htruthy hnobj
    have hp : parse_message jsonLoads data = some v := by
      simp [parse_message, hok]
    cases v with
    | obj m => exact absurd rfl (hnobj m)
    | list xs => simp [handle_client_loop, hne, hp, htruthy]
    | str s => simp [handle_client_loop, hne, hp, htruthy]
    | int n => simp [handle_client_loop, hne, hp, htruthy]
    | bool b =>
      have hb : b = true := by simpa [PyVal.truthy] using htruthy
      subst hb
      simp [handle_client_loop, hne, hp, PyVal.truthy]
    | none => exact absurd htruthy (by decide)

/-- Witness for the amended C5: a raising decode (`"garbage"`) and a falsy
decode (`"null"`) are both skipped with the following chat message still
processed, while the truthy non-dict decode (`"123"`) ends the loop. -/
theorem malformed_input_handling_witness :
    (parse_message jsonLoadsEx "garbage" = none ∧
      handle_client_loop jsonLoadsEx (fun _ => false) (fun k => (k : ℤ)) clientsEx 1
          "Client_1" [.recv "garbage", .recv "CHAT"] 0
        = handle_client_loop jsonLoadsEx (fun _ => false) (fun k => (k : ℤ)) clientsEx
            1 "Client_1" [.recv "CHAT"] 0) ∧
    (handle_client_loop jsonLoadsEx (fun _ => false) (fun k => (k : ℤ)) clientsEx 1
        "Client_1" [.recv "null", .recv "CHAT"] 0
      = handle_client_loop jsonLoadsEx (fun _ => false) (fun k => (k : ℤ)) clientsEx 1
          "Client_1" [.recv "CHAT"] 0) ∧
    handle_client_loop jsonLoadsEx (fun _ => false) (fun k => (k : ℤ)) clientsEx 1
        "Client_1" [.recv "123", .recv "CHAT"] 0 = ([], 0) := by
  refine ⟨?_, ?_, ?_⟩
  · exact (malformed_input_handling jsonLoadsEx (fun _ => false) (fun k => (k : ℤ))
      clientsEx 1 "Client_1" "garbage" "Expecting value" PyVal.none [.recv "CHAT"] 0
      (by decide)).1 rfl
  · exact (malformed_input_handling jsonLoadsEx (fun _ => false) (fun k => (k : ℤ))
      clientsEx 1 "Client_1" "null" "Expecting value" PyVal.none [.recv "CHAT"] 0
      (by decide)).2.1 rfl rfl
  · exact (malformed_input_handling jsonLoadsEx (fun _ => false) (fun k => (k : ℤ))
      clientsEx 1 "Client_1" "123" "Expecting value" (PyVal.int 123) [.recv "CHAT"] 0
      (by decide)).2.2 rfl rfl (fun m h => PyVal.noConfusion h)

/-! ## Session exit: exactly one leave broadcast, one close, one
deregistration -/

lemma countP_map_send_attempt_zero (q : Effect → Bool) (f : Handle → Bool)
    (payload : JObj) (hs : List Handle)
    (hq : ∀ h, q (Effect.send h payload) = false ∧
      q (Effect.sendFailed h payload) = false) :
    (hs.map (send_attempt f payload)).countP q = 0 := by
  induction hs with
  | nil => rfl
  | cons h t ih =>
    by_cases hf : f h <;>
      simp [send_attempt, hf, List.countP_cons, (hq h).1, (hq h).2, ih]

lemma countP_map_send_attempt_leave (f : Handle → Bool) (payload : JObj)
    (hs : List Handle) (t : Handle)
    (hpt : payload.get "type" = .str MSG_TYPE_USER_LEAVE) :
    (hs.map (send_attempt f payload)).countP (isUserLeaveSendTo t) = hs.count t := by
  have htrue : (JVal.str MSG_TYPE_USER_LEAVE == JVal.str MSG_TYPE_USER_LEAVE) = true := by
    decide
  induction hs with
  | nil => rfl
  | cons h hs ih =>
    rcases eq_or_ne h t with ht | ht
    · subst ht
      by_cases hf : f h <;>
        simp [send_attempt, hf, isUserLeaveSendTo, hpt, htrue, List.countP_cons,
          List.count_cons, ih]
    · by_cases hf : f h <;>
        simp [send_attempt, hf, isUserLeaveSendTo, hpt, htrue, List.countP_cons,
          List.count_cons, ht, ih]

lemma countP_broadcast_zero (q : Effect → Bool) (f : Handle → Bool) (now : ℤ)
    (msg_type : String) (kwargs : JObj) (clients : Registry)
    (hacq : q .lockAcquire = false) (hrel : q .lockRelease = false)
    (hq : ∀ h, q (Effect.send h (broadcast_payload now msg_type kwargs)) = false ∧
      q (Effect.sendFailed h (broadcast_payload now msg_type kwargs)) = false) :
    (broadcast_message f now msg_type kwargs clients).countP q = 0 := by
  show (Effect.lockAcquire ::
    ((clients.map Prod.fst).map (send_attempt f (broadcast_payload now msg_type kwargs))
      ++ [Effect.lockRelease])).countP q = 0
  rw [List.countP_cons, List.countP_append, List.countP_cons, List.countP_nil,
    countP_map_send_attempt_zero q f _ _ hq]
  simp [hacq, hrel]

lemma countP_broadcast_leave (f : Handle → Bool) (now : ℤ) (kwargs : JObj)
    (clients : Registry) (t : Handle)
    (hpt : (broadcast_payload now MSG_TYPE_USER_LEAVE kwargs).get "type"
      = .str MSG_TYPE_USER_LEAVE) :
    (broadcast_message f now MSG_TYPE_USER_LEAVE kwargs clients).countP
        (isUserLeaveSendTo t)
      = (clients.map Prod.fst).count t := by
  show (Effect.lockAcquire ::
    ((clients.map Prod.fst).map
        (send_attempt f (broadcast_payload now MSG_TYPE_USER_LEAVE kwargs))
      ++ [Effect.lockRelease])).countP (isUserLeaveSendTo t) = _
  rw [List.countP_cons, List.countP_append, List.countP_cons, List.countP_nil,
    countP_map_send_attempt_leave f _ _ t hpt]
  simp [isUserLeaveSendTo]

lemma dispatch_no_leave (f : Handle → Bool) (clients : Registry) (sock : Handle)
    (cid : String) (m : JObj) (now : ℤ) (t : Handle) :
    (dispatch f clients sock cid m now).countP (isUserLeaveSendTo t) = 0 := by
  have hresp : (clock_sync_response_payload now m).get "type"
      = JVal.str MSG_TYPE_CLOCK_SYNC_RESPONSE := rfl
  have hbc : (broadcast_payload now MSG_TYPE_BROADCAST
      [("user_id", .str cid), ("message", m.get "content"),
       ("client_timestamp", m.get "client_timestamp")]).get "type"
      = JVal.str MSG_TYPE_BROADCAST := rfl
  have hf1 : (JVal.str MSG_TYPE_CLOCK_SYNC_RESPONSE == JVal.str MSG_TYPE_USER_LEAVE)
      = false := by decide
  have hf2 : (JVal.str MSG_TYPE_BROADCAST == JVal.str MSG_TYPE_USER_LEAVE)
      = false := by decide
  by_cases h1 : m.get "type" = JVal.str MSG_TYPE_CLOCK_SYNC_REQUEST
  · simp only [dispatch, if_pos h1, handle_clock_sync_request]
    by_cases hf : f sock <;>
      simp [send_attempt, hf, List.countP_cons, isUserLeaveSendTo, hresp, hf1]
  · by_cases h2 : m.get "type" = JVal.str MSG_TYPE_CHAT
    · simp only [dispatch, if_neg h1, if_pos h2]
      refine countP_broadcast_zero _ f now _ _ clients rfl rfl ?_
      intro h
      constructor <;> simp [isUserLeaveSendTo, hbc, hf2]
    · simp [dispatch, if_neg h1, if_neg h2]

lemma dispatch_no_close (f : Handle → Bool) (clients : Registry) (sock : Handle)
    (cid : String) (m : JObj) (now : ℤ) (t : Handle) :
    (dispatch f clients sock cid m now).countP (isCloseOf t) = 0 := by
  by_cases h1 : m.get "type" = JVal.str MSG_TYPE_CLOCK_SYNC_REQUEST
  · simp only [dispatch, if_pos h1, handle_clock_sync_request]
    by_cases hf : f sock <;> simp [send_attempt, hf, List.countP_cons, isCloseOf]
  · by_cases h2 : m.get "type" = JVal.str MSG_TYPE_CHAT
    · simp only [dispatch, if_neg h1, if_pos h2]
      exact countP_broadcast_zero _ f now _ _ clients rfl rfl (fun h => ⟨rfl, rfl⟩)
    · simp [dispatch, if_neg h1, if_neg h2]

lemma loop_countP_zero (jl : String → Except String PyVal) (f : Handle → Bool)
    (ck : ℕ → ℤ) (clients : Registry) (sock : Handle) (cid : String)
    (q : Effect → Bool)
    (hdisp : ∀ m now, (dispatch f clients sock cid m now).countP q = 0)
    (ins : List NetIn) (p : ℕ) :
    ((handle_client_loop jl f ck clients sock cid ins p).1).countP q = 0 := by
  induction ins generalizing p with
  | nil => simp [handle_client_loop]
  | cons i rest ih =>
    cases i with
    | recvError => simp [handle_client_loop]
    | recv data =>
      by_cases hd : data = ""
      · simp [handle_client_loop, hd]
      · cases hparse : parse_message jl data with
        | none => simp [handle_client_loop, hd, hparse, ih]
        | some v =>
          by_cases htr : v.truthy = false
          · simp [handle_client_loop, hd, hparse, htr, ih]
          · cases v with
            | obj m =>
              simp [handle_client_loop, hd, hparse, htr, List.countP_append,
                hdisp, ih]
            | list xs => simp [handle_client_loop, hd, hparse, htr]
            | str s => simp [handle_client_loop, hd, hparse, htr]
            | int n => simp [handle_client_loop, hd, hparse, htr]
            | bool b => simp [handle_client_loop, hd, hparse, htr]
            | none => simp [handle_client_loop, hd, hparse, htr]

lemma count_keys_filter (clients : Registry) (sock other : Handle)
    (hne : other ≠ sock) :
    ((clients.filter (fun p => p.1 != sock)).map Prod.fst).count other
      = (clients.map Prod.fst).count other := by
  induction clients with
  | nil => rfl
  | cons c cs ih =>
    by_cases hc : c.1 = sock
    · rw [List.filter_cons_of_neg (by simp [hc]), ih, List.map_cons, List.count_cons]
      simp [hc, Ne.symm hne]
    · rw [List.filter_cons_of_pos (by simp [hc]), List.map_cons, List.count_cons,
        List.map_cons, List.count_cons, ih]

/-- **C6.** Whatever makes the session loop exit — an exhausted stream, an
empty read, or a transport error — the session handler removes the
connection from the registry exactly once (the final registry is the
initial one minus this socket's entry), hands exactly one `user_leave`
broadcast to each other registered client, and closes the connection handle
exactly once.  The loop itself never emits a leave or a close, so no
duplicate events arise from any exit path. -/
theorem session_exit_once (jl : String → Except String PyVal) (f : Handle → Bool)
    (ck : ℕ → ℤ) (clients : Registry) (sock : Handle) (cid : String)
    (ins : List NetIn) (other : Handle)
    (hnd : (clients.map Prod.fst).Nodup) (hmem : other ∈ clients.map Prod.fst)
    (hne : other ≠ sock) :
    ((handle_client jl f ck clients sock cid ins).1).countP
        (isUserLeaveSendTo other) = 1 ∧
    ((handle_client jl f ck clients sock cid ins).1).countP (isCloseOf sock) = 1 ∧
    (handle_client jl f ck clients sock cid ins).2
      = clients.filter (fun p => p.1 != sock) ∧
    sock ∉ ((handle_client jl f ck clients sock cid ins).2).map Prod.fst := by
  have hloopL : ((handle_client_loop jl f ck clients sock cid ins 0).1).countP
      (isUserLeaveSendTo other) = 0 :=
    loop_countP_zero jl f ck clients sock cid _
      (fun m now => dispatch_no_leave f clients sock cid m now other) ins 0
  have hloopC : ((handle_client_loop jl f ck clients sock cid ins 0).1).countP
      (isCloseOf sock) = 0 :=
    loop_countP_zero jl f ck clients sock cid _
      (fun m now => dispatch_no_close f clients sock cid m now sock) ins 0
  have hleave : (broadcast_message f (ck (handle_client_loop jl f ck clients sock
        cid ins 0).2) MSG_TYPE_USER_LEAVE
        [("user_id", .str cid), ("message", .str (cid ++ " left the chat"))]
        (clients.filter (fun p => p.1 != sock))).countP (isUserLeaveSendTo other)
      = 1 := by
    rw [countP_broadcast_leave f (ck (handle_client_loop jl f ck clients sock cid
          ins 0).2)
        [("user_id", .str cid), ("message", .str (cid ++ " left the chat"))]
        (clients.filter (fun p => p.1 != sock)) other (by rfl),
      count_keys_filter clients sock other hne]
    exact List.count_eq_one_of_mem hnd hmem
  have hclose : (broadcast_message f (ck (handle_client_loop jl f ck clients sock
        cid ins 0).2) MSG_TYPE_USER_LEAVE
        [("user_id", .str cid), ("message", .str (cid ++ " left the chat"))]
        (clients.filter (fun p => p.1 != sock))).countP (isCloseOf sock) = 0 :=
    countP_broadcast_zero _ f _ _ _ _ rfl rfl (fun h => ⟨rfl, rfl⟩)
  refine ⟨?_, ?_, rfl, ?_⟩
  · show ((handle_client_loop jl f ck clients sock cid ins 0).1 ++
      ([Effect.lockAcquire, Effect.lockRelease] ++ _ ++ [Effect.close sock])).countP
        (isUserLeaveSendTo other) = 1
    simp [List.countP_append, List.countP_cons, hloopL, hleave, isUserLeaveSendTo]
  · show ((handle_client_loop jl f ck clients sock cid ins 0).1 ++
      ([Effect.lockAcquire, Effect.lockRelease] ++ _ ++ [Effect.close sock])).countP
        (isCloseOf sock) = 1
    simp [List.countP_append, List.countP_cons, hloopC, hclose, isCloseOf]
  · show sock ∉ (clients.filter (fun p => p.1 != sock)).map Prod.fst
    simp only [List.mem_map, List.mem_filter, not_exists]
    rintro p ⟨⟨-, hp⟩, hfst⟩
    simp [hfst] at hp

/-- Witness for C6: socket 1 (`Client_1`) processes one chat message and the
stream ends; socket 2 is the other registered client. -/
theorem session_exit_once_witness :
    ((handle_client jsonLoadsEx (fun _ => false) (fun k => (k : ℤ)) clientsEx 1
        "Client_1" [.recv "CHAT"]).1).countP (isUserLeaveSendTo 2) = 1 ∧
    ((handle_client jsonLoadsEx (fun _ => false) (fun k => (k : ℤ)) clientsEx 1
        "Client_1" [.recv "CHAT"]).1).countP (isCloseOf 1) = 1 ∧
    (handle_client jsonLoadsEx (fun _ => false) (fun k => (k : ℤ)) clientsEx 1
        "Client_1" [.recv "CHAT"]).2 = clientsEx.filter (fun p => p.1 != 1) ∧
    (1 : Handle) ∉ ((handle_client jsonLoadsEx (fun _ => false) (fun k => (k : ℤ))
        clientsEx 1 "Client_1" [.recv "CHAT"]).2).map Prod.fst :=
  session_exit_once jsonLoadsEx (fun _ => false) (fun k => (k : ℤ)) clientsEx 1
    "Client_1" [.recv "CHAT"] 2 (by decide) (by decide) (by decide)

/-! ## Transport errors -/

/-- **C9, counterexample.** The claim says every failed write terminates the
session's loop.  Concretely: with all sends failing, a session that receives
a `clock_sync_request` followed by a chat message suffers a write failure on
the sync response (`sendFailed 1 …` below), yet the loop goes on to process
the chat message (the broadcast attempts follow) and consumes the whole
stream (final step counter 2): the failed write did not terminate the
loop — `handle_clock_sync_request` swallows it and `handle_client`
continues. -/
theorem write_failure_does_not_end_loop :
    handle_client_loop jsonLoadsEx (fun _ => true) (fun k => (k : ℤ)) clientsEx 1
        "Client_1" [.recv "SYNC", .recv "CHAT"] 0
      = ([.sendFailed 1 (clock_sync_response_payload 0 syncReqEx),
          .lockAcquire,
          .sendFailed 1 (broadcast_payload 1 MSG_TYPE_BROADCAST
            [("user_id", .str "Client_1"), ("message", .str "hi"),
             ("client_timestamp", .int 1000)]),
          .sendFailed 2 (broadcast_payload 1 MSG_TYPE_BROADCAST
            [("user_id", .str "Client_1"), ("message", .str "hi"),
             ("client_timestamp", .int 1000)]),
          .lockRelease], 2) := by
  decide

/-- **C9, amended.** Transport errors are recovered locally and never escape
the handler, but only a failed *read* terminates the session's loop: a
`recvError` ends the loop at once (the rest of the stream is ignored) and
the `finally` block then deregisters the socket, while a successfully read
and decoded message dict is dispatched — with any write failures swallowed
inside the dispatch — and the loop continues with the remaining stream. -/
theorem transport_errors_localized (jl : String → Except String PyVal)
    (f : Handle → Bool) (ck : ℕ → ℤ) (clients : Registry) (sock : Handle)
    (cid : String) :
    (∀ rest p, handle_client_loop jl f ck clients sock cid (.recvError :: rest) p
      = ([], p)) ∧
    (∀ ins, sock ∉ ((handle_client jl f ck clients sock cid ins).2).map Prod.fst) ∧
    (∀ data m rest p, jl data = .ok (.obj m) → m ≠ [] → data ≠ "" →
      handle_client_loop jl f ck clients sock cid (.recv data :: rest) p
        = (dispatch f clients sock cid m (ck p)
            ++ (handle_client_loop jl f ck clients sock cid rest (p + 1)).1,
           (handle_client_loop jl f ck clients sock cid rest (p + 1)).2)) := by
  refine ⟨fun rest p => rfl, ?_, ?_⟩
  · intro ins
    show sock ∉ (clients.filter (fun p => p.1 != sock)).map Prod.fst
    simp only [List.mem_map, List.mem_filter, not_exists]
    rintro p ⟨⟨-, hp⟩, hfst⟩
    simp [hfst] at hp
  · intro data m rest p hok hm hne
    have hp : parse_message jl data = some (.obj m) := by simp [parse_message, hok]
    cases m with
    | nil => exact absurd rfl hm
    | cons kv t => simp [handle_client_loop, hne, hp, PyVal.truthy]

/-- Witness for the amended C9 at concrete inputs: a read error ends the
loop ignoring the rest of the stream, the socket is deregistered, and a
successfully read chat message is dispatched with the loop continuing. -/
theorem transport_errors_localized_witness :
    handle_client_loop jsonLoadsEx (fun _ => false) (fun k => (k : ℤ)) clientsEx 1
        "Client_1" [.recvError, .recv "CHAT"] 0 = ([], 0) ∧
    (1 : Handle) ∉ ((handle_client jsonLoadsEx (fun _ => false) (fun k => (k : ℤ))
        clientsEx 1 "Client_1" [.recvError]).2).map Prod.fst ∧
    handle_client_loop jsonLoadsEx (fun _ => false) (fun k => (k : ℤ)) clientsEx 1
        "Client_1" [.recv "CHAT"] 0
      = (dispatch (fun _ => false) clientsEx 1 "Client_1" chatMsgEx
            ((fun k => (k : ℤ)) 0)
          ++ (handle_client_loop jsonLoadsEx (fun _ => false) (fun k => (k : ℤ))
              clientsEx 1 "Client_1" [] 1).1,
         (handle_client_loop jsonLoadsEx (fun _ => false) (fun k => (k : ℤ))
              clientsEx 1 "Client_1" [] 1).2) := by
  obtain ⟨h1, h2, h3⟩ := transport_errors_localized jsonLoadsEx (fun _ => false)
    (fun k => (k : ℤ)) clientsEx 1 "Client_1"
  exact ⟨h1 [.recv "CHAT"] 0, h2 [.recvError],
    h3 "CHAT" chatMsgEx [] 0 rfl (by decide) (by decide)⟩

end WhatSapp
